import Mathlib

/-!
Shallow embedding of `src/django_cache_wrapper.py`: the `cache_result`
decorator's per-invocation behaviour (`wrapper`, lines 29-59) and the key
derivation `generate_cache_key_for_method` (lines 63-88).

Python values that can appear as arguments or results are modelled by
`PyVal`, with `PyVal.none` playing the role of Python's `None`.  Python
dicts (`**kwargs`, and the Django cache store) are association lists in
insertion order; `dict.get(k)` and Django's `cache.get(k)` both default to
`None`, modelled by `getOrNone`.  The process-randomised
`hash(pickle.dumps(...))` is an abstract `Hasher` parameter; its three uses
(the selected-keyword value list, the positional tuple, the kwargs dict)
are separate fields.  Backend and settings behaviour for one invocation is
an `Env` record: the `USE_CACHE` flag, whether `caches[cache_setup]`
resolves, and whether the backend's `get` / `set` raise on this
invocation.  The wrapped function's behaviour on the given arguments is a
call-indexed sequence `fseq : Nat → Except String PyVal` (an exception
payload or a return value per invocation of `func`): one wrapped call can
invoke `func` up to twice, because the `return func(...)` at line 46 sits
inside the `try` of lines 41-49, so an exception raised there is caught by
the catch-all `except` at line 48 and `func` runs again at line 52.  The
outcome of one invocation records the caller-visible result, the store
after the call, and a log (how often `func` was called, whether a key was
derived, whether `get` was attempted, and which `set` calls were made).
-/

namespace DjangoCacheWrapper

/-- A Python value, as far as the decorator inspects one.  `PyVal.none` is
Python's `None`; the decorator only ever compares values against `None`
and passes them to the user filter, so a small universe suffices. -/
inductive PyVal where
  | none : PyVal
  | bool (b : Bool) : PyVal
  | int (n : Int) : PyVal
  | str (s : String) : PyVal
  deriving DecidableEq, Repr

/-- `d.get(k)` on a Python dict / `cache_conn.get(k)` on a Django cache:
the stored value, or `None` when absent (first binding wins, as Python
dicts have unique keys and our store conses fresh bindings in front). -/
def getOrNone (d : List (String × PyVal)) (k : String) : PyVal :=
  match d.find? (fun p => p.1 == k) with
  | Option.some p => p.2
  | Option.none => PyVal.none

/-- Python truthiness of the `cache_key: Optional[str]` argument:
`if cache_key:` is taken iff it is neither `None` nor the empty string. -/
def truthyOptStr : Option String → Bool
  | Option.none => false
  | Option.some s => !(s == "")

/-- Python truthiness of the `cache_kwarg_keys: Optional[List[str]]`
argument: `if cache_kwarg_keys:` is taken iff it is neither `None` nor the
empty list. -/
def truthyOptList : Option (List String) → Bool
  | Option.none => false
  | Option.some l => !l.isEmpty

/-- The three uses of `hash(pickle.dumps(x))` in the source, kept abstract
because Python's `hash` is process-randomised: one field per pickled
shape (the selected-keyword value list, the positional args tuple, the
kwargs dict).  Each field is deterministic within a process, which is all
the source relies on. -/
structure Hasher where
  hashList : List PyVal → Int
  hashTuple : List PyVal → Int
  hashDict : List (String × PyVal) → Int

/-- The `ValueError` message raised at line 78 of the source. -/
def kwOnlyMsg : String :=
  "cache_kwarg_keys mode requires keyword arguments only; args should be empty"

/-- `generate_cache_key_for_method` (source lines 63-88).  The Python
`method` argument is represented by its `__module__` and `__name__`
strings.  Returns `Except.error` for the `raise ValueError` at line 78,
`Except.ok key` otherwise. -/
def generate_cache_key_for_method (H : Hasher) (module funcName : String)
    (method_kwargs : List (String × PyVal)) (method_args : List PyVal)
    (cache_kwarg_keys : Option (List String)) (cache_key : Option String) :
    Except String String :=
  if truthyOptStr cache_key then
    Except.ok (module ++ "::" ++ funcName ++ "::" ++ cache_key.getD "")
  else if truthyOptList cache_kwarg_keys then
    if !method_args.isEmpty then
      Except.error kwOnlyMsg
    else
      Except.ok (module ++ "::" ++ funcName ++ "::" ++
        toString (H.hashList ((cache_kwarg_keys.getD []).map (getOrNone method_kwargs))))
  else
    Except.ok (String.intercalate "::"
      ([module, funcName]
        ++ (if !method_args.isEmpty then [toString (H.hashTuple method_args)] else [])
        ++ (if !method_kwargs.isEmpty then [toString (H.hashDict method_kwargs)] else [])))

/-- Per-wrap configuration of `cache_result` (source lines 12-18), minus
the backend alias, whose resolution outcome lives in `Env`. -/
structure Config where
  cache_key : Option String
  cache_kwarg_keys : Option (List String)
  seconds : Nat
  cache_filter : PyVal → Bool

/-- The environment one invocation runs in: the fresh read of
`settings.USE_CACHE`, whether `caches[cache_setup]` resolves, and whether
the backend's `get` / `set` raise on this invocation. -/
structure Env where
  use_cache : Bool
  resolveOk : Bool
  getFails : Bool
  setFails : Bool
  deriving DecidableEq, Repr

/-- A caller-visible exception of the wrapper: the `ValueError` from key
derivation, or the wrapped function's own exception (payload preserved). -/
inductive PyErr where
  | valueError (msg : String) : PyErr
  | funcErr (e : String) : PyErr
  deriving DecidableEq, Repr

/-- Observable events of one invocation: how many times `func` ran,
whether key derivation ran, whether `cache_conn.get` was attempted, and
the `cache_conn.set(key, value, seconds)` calls attempted. -/
structure Log where
  funcCalls : Nat
  derivations : Nat
  getAttempts : Nat
  sets : List (String × PyVal × Nat)
  deriving DecidableEq, Repr

/-- Result of one invocation of the wrapped function: caller-visible
result, the store after the call, and the event log. -/
structure Outcome where
  result : Except PyErr PyVal
  store : List (String × PyVal)
  log : Log

/-- One `func(*args, **kwargs)` call's behaviour, lifted into the
wrapper's error type unchanged. -/
def callF : Except String PyVal → Except PyErr PyVal
  | Except.ok v => Except.ok v
  | Except.error e => Except.error (PyErr.funcErr e)

/-- `cache_conn.set` after a stored binding: fresh binding in front. -/
def storeSet (st : List (String × PyVal)) (k : String) (v : PyVal) :
    List (String × PyVal) :=
  (k, v) :: st

/-- Source lines 52-59: compute `result = func(...)`, and when the filter
admits it attempt `cache_conn.set(key, result, seconds)`, swallowing a
`set` failure.  `g` is the number of `get` attempts already logged and
`fc` the number of `func` calls already made before reaching line 52 (one
when the filtered-hit `return func(...)` at line 46 raised, zero
otherwise); the argument is the behaviour of this `func` call. -/
def computeAndStore (cfg : Config) (env : Env) (st : List (String × PyVal))
    (key : String) (g fc : Nat) : Except String PyVal → Outcome
  | Except.error e =>
      { result := Except.error (PyErr.funcErr e), store := st
        log := { funcCalls := fc + 1, derivations := 1, getAttempts := g, sets := [] } }
  | Except.ok v =>
      if cfg.cache_filter v then
        { result := Except.ok v
          store := if env.setFails then st else storeSet st key v
          log := { funcCalls := fc + 1, derivations := 1, getAttempts := g
                   sets := [(key, v, cfg.seconds)] } }
      else
        { result := Except.ok v, store := st
          log := { funcCalls := fc + 1, derivations := 1, getAttempts := g, sets := [] } }

/-- One invocation of `wrapper` (source lines 29-59).  Mirrors the source
line by line: the `USE_CACHE` bypass (30-31), the backend-resolution
bypass (33-37), key derivation outside any try (39), the guarded lookup
with hit / filtered-hit handling (41-49), and compute-and-store (52-59).
The `return func(*args, **kwargs)` of the filtered-hit branch (line 46)
sits inside the `try`: when that call returns a value it is the caller's
result, but when it raises, the catch-all `except Exception` at line 48
swallows the error and control falls through to line 52, where `func` is
invoked a second time (behaviour `fseq 1`) and filtered and stored as on a
miss.  A raising `get` (line 42) likewise falls through to line 52, with
`func` not yet called. -/
def wrapper (H : Hasher) (cfg : Config) (module funcName : String)
    (fseq : Nat → Except String PyVal) (env : Env)
    (st : List (String × PyVal)) (args : List PyVal)
    (kwargs : List (String × PyVal)) : Outcome :=
  if !env.use_cache then
    { result := callF (fseq 0), store := st
      log := { funcCalls := 1, derivations := 0, getAttempts := 0, sets := [] } }
  else if !env.resolveOk then
    { result := callF (fseq 0), store := st
      log := { funcCalls := 1, derivations := 0, getAttempts := 0, sets := [] } }
  else
    match generate_cache_key_for_method H module funcName kwargs args
        cfg.cache_kwarg_keys cfg.cache_key with
    | Except.error msg =>
        { result := Except.error (PyErr.valueError msg), store := st
          log := { funcCalls := 0, derivations := 1, getAttempts := 0, sets := [] } }
    | Except.ok key =>
        if env.getFails then
          computeAndStore cfg env st key 1 0 (fseq 0)
        else
          let result := getOrNone st key
          if result ≠ PyVal.none then
            if !cfg.cache_filter result then
              match fseq 0 with
              | Except.ok v =>
                  { result := Except.ok v, store := st
                    log := { funcCalls := 1, derivations := 1, getAttempts := 1, sets := [] } }
              | Except.error _ =>
                  computeAndStore cfg env st key 1 1 (fseq 1)
            else
              { result := Except.ok result, store := st
                log := { funcCalls := 0, derivations := 1, getAttempts := 1, sets := [] } }
          else
            computeAndStore cfg env st key 1 0 (fseq 0)

/-! Concrete instances used by witnesses: a deterministic stand-in hasher
(any deterministic function is a legitimate instance of the abstract
`hash(pickle.dumps(...))`), and small encodings backing it. -/

/-- Small injective-enough numeric encoding of a `PyVal`, for `testH`. -/
def encVal : PyVal → Nat
  | PyVal.none => 0
  | PyVal.bool b => if b then 1 else 2
  | PyVal.int n => 3 + 2 * n.natAbs + (if n < 0 then 1 else 0)
  | PyVal.str s => 1000 + s.length

/-- Fold-based encoding of a value list, for `testH`. -/
def encValList (l : List PyVal) : Int :=
  Int.ofNat (l.foldl (fun a v => a * 1000003 + encVal v) 7)

/-- Fold-based encoding of a string-value pair list, for `testH`. -/
def encPairList (l : List (String × PyVal)) : Int :=
  Int.ofNat (l.foldl (fun a p => a * 1000033 + 17 * p.1.length + encVal p.2) 11)

/-- A concrete deterministic `Hasher`, used to instantiate witnesses. -/
def testH : Hasher :=
  { hashList := encValList, hashTuple := encValList, hashDict := encPairList }

/-- The all-clear environment: caching on, backend resolved, no failures. -/
def envOK : Env :=
  { use_cache := true, resolveOk := true, getFails := false, setFails := false }

/-! Helper lemmas shared by several claims. -/

/-- `String.append` is left-cancellative. -/
theorem string_append_left_cancel {p s t : String} (h : p ++ s = p ++ t) : s = t := by
  apply String.ext
  have hd := congrArg String.data h
  simp only [String.data_append] at hd
  exact List.append_cancel_left hd

/-- Reading back the key just written by `storeSet`. -/
theorem getOrNone_storeSet_self (st : List (String × PyVal)) (k : String) (v : PyVal) :
    getOrNone (storeSet st k v) k = v := by
  simp [getOrNone, storeSet, List.find?_cons_of_pos]

/-- Claim C7: under the `AllArguments` strategy (neither a truthy fixed
key nor a truthy keyword selection), the derived key is the signature pair
joined by `::`, with the hash of the positional tuple appended iff the
positional args are non-empty, then the hash of the kwargs dict appended
iff the kwargs are non-empty. -/
theorem allArguments_key_shape (H : Hasher) (module funcName : String)
    (kwargs : List (String × PyVal)) (args : List PyVal)
    (kk : Option (List String)) (ck : Option String)
    (hck : truthyOptStr ck = false) (hkk : truthyOptList kk = false) :
    generate_cache_key_for_method H module funcName kwargs args kk ck =
      Except.ok ((module ++ "::" ++ funcName)
        ++ (if args.isEmpty then "" else "::" ++ toString (H.hashTuple args))
        ++ (if kwargs.isEmpty then "" else "::" ++ toString (H.hashDict kwargs))) := by
  unfold generate_cache_key_for_method
  rw [hck, hkk]
  cases args <;> cases kwargs <;>
    simp [String.intercalate, String.intercalate.go, String.append_assoc]

/-- Claim C7 witness: a concrete call with one positional and one keyword
argument. -/
theorem allArguments_key_shape_witness :
    generate_cache_key_for_method testH ("m") ("f") [(("a" : String), PyVal.int 2)]
        [PyVal.int 1] Option.none Option.none =
      Except.ok (("m" ++ "::" ++ "f")
        ++ (if ([PyVal.int 1] : List PyVal).isEmpty then ""
            else "::" ++ toString (testH.hashTuple [PyVal.int 1]))
        ++ (if ([(("a" : String), PyVal.int 2)] : List (String × PyVal)).isEmpty then ""
            else "::" ++ toString (testH.hashDict [(("a" : String), PyVal.int 2)]))) :=
  allArguments_key_shape testH ("m") ("f") [(("a" : String), PyVal.int 2)]
    [PyVal.int 1] Option.none Option.none (by decide) (by decide)

/-- Claim C9 counterexample: `cache_key = ""` is falsy in Python, so the
`Fixed` branch is skipped and the key falls through to the `AllArguments`
shape `"m::f"`, not `"m::f::" ++ ""`. -/
theorem fixed_empty_key_falls_through :
    generate_cache_key_for_method testH ("m") ("f") [] [] Option.none (Option.some "") =
      Except.ok ("m::f") ∧ ("m::f" : String) ≠ ("m" ++ "::" ++ "f" ++ "::" ++ "") := by
  exact ⟨rfl, by decide⟩

/-- Claim C9 (amended to non-empty fixed keys): for a truthy `cache_key`,
the derived key is exactly `module::funcName::key`, for all positional and
keyword arguments and regardless of any `cache_kwarg_keys` configuration. -/
theorem fixed_key_ignores_args (H : Hasher) (module funcName : String)
    (kwargs : List (String × PyVal)) (args : List PyVal)
    (kk : Option (List String)) (key : String) (hk : key ≠ "") :
    generate_cache_key_for_method H module funcName kwargs args kk (Option.some key) =
      Except.ok (module ++ "::" ++ funcName ++ "::" ++ key) := by
  unfold generate_cache_key_for_method
  simp [truthyOptStr, hk]

/-- Claim C9 witness: the fixed key wins over a keyword selection and over
positional arguments. -/
theorem fixed_key_ignores_args_witness :
    generate_cache_key_for_method testH ("m") ("f") [(("a" : String), PyVal.int 2)]
        [PyVal.int 1] (Option.some [("n" : String)]) (Option.some ("k")) =
      Except.ok ("m" ++ "::" ++ "f" ++ "::" ++ "k") :=
  fixed_key_ignores_args testH ("m") ("f") [(("a" : String), PyVal.int 2)]
    [PyVal.int 1] (Option.some [("n" : String)]) ("k") (by decide)

/-- Claim C6 counterexample: the "absent" sentinel is Python's `None`,
which is not distinct from a real argument value — a call that explicitly
supplies `n = None` derives exactly the same key as a call that omits `n`,
for the concrete hasher (the value lists are identical, so this holds for
every hasher). -/
theorem selected_keywords_none_collides :
    generate_cache_key_for_method testH ("m") ("f") [(("n" : String), PyVal.none)] []
        (Option.some [("n" : String)]) Option.none =
      generate_cache_key_for_method testH ("m") ("f") [] []
        (Option.some [("n" : String)]) Option.none := by
  rfl

/-- Claim C6 (amended: omission is distinguishable only from non-`None`
values): under a truthy keyword selection with no positional arguments, a
selected name `n` omitted by one call and bound to a non-`None` value by
the other (all other selected names resolving equal) yields different
hashed value lists, and different derived keys whenever the rendered
hashes differ (hash collisions excepted). -/
theorem selected_keywords_missing_vs_non_none (H : Hasher) (module funcName : String)
    (kwargs1 kwargs2 : List (String × PyVal)) (names : List String)
    (n : String) (v : PyVal) (ck : Option String)
    (hmem : n ∈ names)
    (h1 : kwargs1.find? (fun p => p.1 == n) = Option.none)
    (h2 : getOrNone kwargs2 n = v) (hv : v ≠ PyVal.none)
    (hck : truthyOptStr ck = false)
    (hne : names ≠ [])
    (hhash : toString (H.hashList (names.map (getOrNone kwargs1))) ≠
             toString (H.hashList (names.map (getOrNone kwargs2)))) :
    names.map (getOrNone kwargs1) ≠ names.map (getOrNone kwargs2) ∧
    generate_cache_key_for_method H module funcName kwargs1 [] (Option.some names) ck ≠
      generate_cache_key_for_method H module funcName kwargs2 [] (Option.some names) ck := by
  have habs : getOrNone kwargs1 n = PyVal.none := by
    simp [getOrNone, h1]
  constructor
  · intro heq
    have := List.map_inj_left.mp heq n hmem
    rw [habs, h2] at this
    exact hv this.symm
  · intro heq
    unfold generate_cache_key_for_method at heq
    rw [hck] at heq
    have htr : truthyOptList (Option.some names) = true := by
      cases names with
      | nil => exact absurd rfl hne
      | cons a l => simp [truthyOptList]
    rw [htr] at heq
    simp at heq
    exact hhash (string_append_left_cancel heq)

/-- Claim C6 witness: omitting `n` versus supplying `n = 3`. -/
theorem selected_keywords_missing_vs_non_none_witness :
    ([("n" : String)].map (getOrNone []) ≠
      [("n" : String)].map (getOrNone [(("n" : String), PyVal.int 3)])) ∧
    generate_cache_key_for_method testH ("m") ("f") [] []
        (Option.some [("n" : String)]) Option.none ≠
      generate_cache_key_for_method testH ("m") ("f") [(("n" : String), PyVal.int 3)] []
        (Option.some [("n" : String)]) Option.none :=
  selected_keywords_missing_vs_non_none testH ("m") ("f") []
    [(("n" : String), PyVal.int 3)] [("n" : String)] ("n") (PyVal.int 3) Option.none
    (by decide) (by rfl) (by rfl) (by decide) (by decide) (by decide) (by decide)

/-- Claim C4 counterexample: configuring the keyword selection with the
empty list is falsy in Python, so a call with a positional argument does
not raise — key derivation falls through to `AllArguments`, the backend
lookup is attempted, and the computed value is returned. -/
theorem selected_keywords_empty_list_no_error :
    (wrapper testH
        { cache_key := Option.none, cache_kwarg_keys := Option.some []
          seconds := 900, cache_filter := fun _ => true } ("m") ("f")
        (fun _ => Except.ok (PyVal.int 7)) envOK [] [PyVal.int 1] []).result =
      Except.ok (PyVal.int 7) ∧
    (wrapper testH
        { cache_key := Option.none, cache_kwarg_keys := Option.some []
          seconds := 900, cache_filter := fun _ => true } ("m") ("f")
        (fun _ => Except.ok (PyVal.int 7)) envOK [] [PyVal.int 1] []).log.getAttempts = 1 := by
  exact ⟨rfl, rfl⟩

/-- Claim C4 (amended to non-empty selections): with caching enabled and
the backend resolved, a truthy keyword selection plus any positional
argument makes the wrapped call raise the `ValueError` to the caller; the
backend is never consulted, nothing is stored, and `F` never runs. -/
theorem selected_keywords_positional_raises (H : Hasher) (cfg : Config)
    (module funcName : String) (fseq : Nat → Except String PyVal) (env : Env)
    (st : List (String × PyVal)) (args : List PyVal)
    (kwargs : List (String × PyVal)) (names : List String)
    (h1 : env.use_cache = true) (h2 : env.resolveOk = true)
    (hck : truthyOptStr cfg.cache_key = false)
    (hkk : cfg.cache_kwarg_keys = Option.some names) (hn : names ≠ [])
    (ha : args ≠ []) :
    wrapper H cfg module funcName fseq env st args kwargs =
      { result := Except.error (PyErr.valueError kwOnlyMsg), store := st
        log := { funcCalls := 0, derivations := 1, getAttempts := 0, sets := [] } } := by
  have hkey : generate_cache_key_for_method H module funcName kwargs args
      cfg.cache_kwarg_keys cfg.cache_key = Except.error kwOnlyMsg := by
    unfold generate_cache_key_for_method
    rw [hck, hkk]
    have htr : truthyOptList (Option.some names) = true := by
      cases names with
      | nil => exact absurd rfl hn
      | cons a l => simp [truthyOptList]
    rw [htr]
    cases args with
    | nil => exact absurd rfl ha
    | cons a l => simp
  unfold wrapper
  rw [h1, h2, hkey]
  simp

/-- Claim C4 witness: a one-name selection called with one positional
argument. -/
theorem selected_keywords_positional_raises_witness :
    wrapper testH
        { cache_key := Option.none, cache_kwarg_keys := Option.some [("n" : String)]
          seconds := 900, cache_filter := fun _ => true } ("m") ("f")
        (fun _ => Except.ok (PyVal.int 7)) envOK [] [PyVal.int 1] [] =
      { result := Except.error (PyErr.valueError kwOnlyMsg), store := []
        log := { funcCalls := 0, derivations := 1, getAttempts := 0, sets := [] } } :=
  selected_keywords_positional_raises testH
    { cache_key := Option.none, cache_kwarg_keys := Option.some [("n" : String)]
      seconds := 900, cache_filter := fun _ => true } ("m") ("f")
    (fun _ => Except.ok (PyVal.int 7)) envOK [] [PyVal.int 1] [] [("n" : String)]
    rfl rfl (by decide) rfl (by decide) (by decide)

/-- Claim C1 counterexample: a cached value (`0`) fails the filter while
the fresh result (`5`) passes it, yet the wrapper performs no `set` at all
and leaves the store unchanged — the filter-rejected hit returns
`func(...)` directly instead of falling through to the store step. -/
theorem hit_rejected_no_restore :
    (wrapper testH
        { cache_key := Option.some ("k"), cache_kwarg_keys := Option.none
          seconds := 60, cache_filter := fun v => v == PyVal.int 5 } ("m") ("f")
        (fun _ => Except.ok (PyVal.int 5)) envOK
        [(("m::f::k" : String), PyVal.int 0)] [] []).result =
      Except.ok (PyVal.int 5) ∧
    (wrapper testH
        { cache_key := Option.some ("k"), cache_kwarg_keys := Option.none
          seconds := 60, cache_filter := fun v => v == PyVal.int 5 } ("m") ("f")
        (fun _ => Except.ok (PyVal.int 5)) envOK
        [(("m::f::k" : String), PyVal.int 0)] [] []).log.sets =
      [] ∧
    (wrapper testH
        { cache_key := Option.some ("k"), cache_kwarg_keys := Option.none
          seconds := 60, cache_filter := fun v => v == PyVal.int 5 } ("m") ("f")
        (fun _ => Except.ok (PyVal.int 5)) envOK
        [(("m::f::k" : String), PyVal.int 0)] [] []).store =
      [(("m::f::k" : String), PyVal.int 0)] ∧
    ((fun v => v == PyVal.int 5) (PyVal.int 0) = false) ∧
    ((fun v => v == PyVal.int 5) (PyVal.int 5) = true) := by
  exact ⟨rfl, rfl, rfl, rfl, rfl⟩

/-- Claim C1 (amended: the rejected-hit path recomputes but neither
re-filters nor re-stores): when the lookup succeeds, the cached value is
non-`None` and fails the filter, and the recomputation at line 46 returns
a value, the wrapper returns that value directly; the store is untouched,
no `set` is attempted, and `F` runs exactly once.  (When line 46 raises
instead, the source retries `F` at line 52 — that path belongs to the C2
correction.) -/
theorem hit_rejected_recomputes_directly (H : Hasher) (cfg : Config)
    (module funcName : String) (fseq : Nat → Except String PyVal) (env : Env)
    (st : List (String × PyVal)) (args : List PyVal)
    (kwargs : List (String × PyVal)) (key : String) (v : PyVal)
    (h1 : env.use_cache = true) (h2 : env.resolveOk = true) (h3 : env.getFails = false)
    (hk : generate_cache_key_for_method H module funcName kwargs args
      cfg.cache_kwarg_keys cfg.cache_key = Except.ok key)
    (hne : getOrNone st key ≠ PyVal.none)
    (hf : cfg.cache_filter (getOrNone st key) = false)
    (hok : fseq 0 = Except.ok v) :
    wrapper H cfg module funcName fseq env st args kwargs =
      { result := Except.ok v, store := st
        log := { funcCalls := 1, derivations := 1, getAttempts := 1, sets := [] } } := by
  unfold wrapper
  rw [h1, h2, hk, h3]
  simp [hne, hf, hok]

/-- Claim C1 witness: the counterexample scenario, in which the stale `0`
is rejected and the fresh `5` is returned directly. -/
theorem hit_rejected_recomputes_directly_witness :
    wrapper testH
        { cache_key := Option.some ("k"), cache_kwarg_keys := Option.none
          seconds := 60, cache_filter := fun v => v == PyVal.int 5 } ("m") ("f")
        (fun _ => Except.ok (PyVal.int 5)) envOK
        [(("m::f::k" : String), PyVal.int 0)] [] [] =
      { result := Except.ok (PyVal.int 5)
        store := [(("m::f::k" : String), PyVal.int 0)]
        log := { funcCalls := 1, derivations := 1, getAttempts := 1, sets := [] } } :=
  hit_rejected_recomputes_directly testH
    { cache_key := Option.some ("k"), cache_kwarg_keys := Option.none
      seconds := 60, cache_filter := fun v => v == PyVal.int 5 } ("m") ("f")
    (fun _ => Except.ok (PyVal.int 5)) envOK [(("m::f::k" : String), PyVal.int 0)] [] []
    ("m::f::k") (PyVal.int 5) rfl rfl rfl (by rfl) (by decide) (by rfl) rfl

/-- Claim C2 counterexample: on the filter-rejected-hit path the `return
func(...)` of line 46 sits inside the `try`, so a first invocation of `F`
that raises is swallowed by the `except` of line 48 and `F` runs again at
line 52 — here the first call raises `"boom"`, the second returns `5`, and
the caller sees `5` with `F` invoked twice: the error neither propagated
nor ended the invocations of `F`. -/
theorem func_error_swallowed_on_rejected_hit :
    (wrapper testH
        { cache_key := Option.some ("k"), cache_kwarg_keys := Option.none
          seconds := 60, cache_filter := fun v => v == PyVal.int 5 } ("m") ("f")
        (fun i => if i == 0 then Except.error ("boom") else Except.ok (PyVal.int 5))
        envOK [(("m::f::k" : String), PyVal.int 0)] [] []).log.funcCalls = 2 ∧
    (wrapper testH
        { cache_key := Option.some ("k"), cache_kwarg_keys := Option.none
          seconds := 60, cache_filter := fun v => v == PyVal.int 5 } ("m") ("f")
        (fun i => if i == 0 then Except.error ("boom") else Except.ok (PyVal.int 5))
        envOK [(("m::f::k" : String), PyVal.int 0)] [] []).result =
      Except.ok (PyVal.int 5) := by
  exact ⟨rfl, rfl⟩

/-- Claim C2 (amended: the rejected-hit path retries once, swallowing the
first error): when every invocation of `F` raises, whatever the
environment, store, arguments and configuration, `F` runs at most twice
(twice only via the line-46-then-52 retry), the store is unchanged, no
`set` is attempted — error conditions are never cached — and the caller
receives the error of the last invocation of `F`: the first error when `F`
ran once, the second when the rejected-hit path retried. -/
theorem func_always_raising_never_cached (H : Hasher) (cfg : Config)
    (module funcName : String) (fseq : Nat → Except String PyVal) (e1 e2 : String)
    (env : Env) (st : List (String × PyVal)) (args : List PyVal)
    (kwargs : List (String × PyVal))
    (hf0 : fseq 0 = Except.error e1) (hf1 : fseq 1 = Except.error e2) :
    (wrapper H cfg module funcName fseq env st args kwargs).log.funcCalls ≤ 2 ∧
    (wrapper H cfg module funcName fseq env st args kwargs).store = st ∧
    (wrapper H cfg module funcName fseq env st args kwargs).log.sets = [] ∧
    ((wrapper H cfg module funcName fseq env st args kwargs).log.funcCalls = 1 →
      (wrapper H cfg module funcName fseq env st args kwargs).result =
        Except.error (PyErr.funcErr e1)) ∧
    ((wrapper H cfg module funcName fseq env st args kwargs).log.funcCalls = 2 →
      (wrapper H cfg module funcName fseq env st args kwargs).result =
        Except.error (PyErr.funcErr e2)) := by
  unfold wrapper
  (repeat' split) <;> simp_all [computeAndStore, callF] <;> (split_ifs <;> simp_all)

/-- Claim C2 witness: a cached entry rejected by the filter and an `F`
raising `"a"` then `"b"`: two invocations, nothing stored, and the second
error is the caller's. -/
theorem func_always_raising_never_cached_witness :
    (wrapper testH
        { cache_key := Option.some ("k"), cache_kwarg_keys := Option.none
          seconds := 60, cache_filter := fun _ => false } ("m") ("f")
        (fun i => if i == 0 then Except.error ("a") else Except.error ("b"))
        envOK [(("m::f::k" : String), PyVal.int 0)] [] []).log.funcCalls ≤ 2 ∧
    (wrapper testH
        { cache_key := Option.some ("k"), cache_kwarg_keys := Option.none
          seconds := 60, cache_filter := fun _ => false } ("m") ("f")
        (fun i => if i == 0 then Except.error ("a") else Except.error ("b"))
        envOK [(("m::f::k" : String), PyVal.int 0)] [] []).store =
      [(("m::f::k" : String), PyVal.int 0)] ∧
    (wrapper testH
        { cache_key := Option.some ("k"), cache_kwarg_keys := Option.none
          seconds := 60, cache_filter := fun _ => false } ("m") ("f")
        (fun i => if i == 0 then Except.error ("a") else Except.error ("b"))
        envOK [(("m::f::k" : String), PyVal.int 0)] [] []).log.sets = [] ∧
    (wrapper testH
        { cache_key := Option.some ("k"), cache_kwarg_keys := Option.none
          seconds := 60, cache_filter := fun _ => false } ("m") ("f")
        (fun i => if i == 0 then Except.error ("a") else Except.error ("b"))
        envOK [(("m::f::k" : String), PyVal.int 0)] [] []).result =
      Except.error (PyErr.funcErr ("b")) :=
  ⟨(func_always_raising_never_cached testH
      { cache_key := Option.some ("k"), cache_kwarg_keys := Option.none
        seconds := 60, cache_filter := fun _ => false } ("m") ("f")
      (fun i => if i == 0 then Except.error ("a") else Except.error ("b")) ("a") ("b")
      envOK [(("m::f::k" : String), PyVal.int 0)] [] [] rfl rfl).1,
   (func_always_raising_never_cached testH
      { cache_key := Option.some ("k"), cache_kwarg_keys := Option.none
        seconds := 60, cache_filter := fun _ => false } ("m") ("f")
      (fun i => if i == 0 then Except.error ("a") else Except.error ("b")) ("a") ("b")
      envOK [(("m::f::k" : String), PyVal.int 0)] [] [] rfl rfl).2.1,
   (func_always_raising_never_cached testH
      { cache_key := Option.some ("k"), cache_kwarg_keys := Option.none
        seconds := 60, cache_filter := fun _ => false } ("m") ("f")
      (fun i => if i == 0 then Except.error ("a") else Except.error ("b")) ("a") ("b")
      envOK [(("m::f::k" : String), PyVal.int 0)] [] [] rfl rfl).2.2.1,
   (func_always_raising_never_cached testH
      { cache_key := Option.some ("k"), cache_kwarg_keys := Option.none
        seconds := 60, cache_filter := fun _ => false } ("m") ("f")
      (fun i => if i == 0 then Except.error ("a") else Except.error ("b")) ("a") ("b")
      envOK [(("m::f::k" : String), PyVal.int 0)] [] [] rfl rfl).2.2.2.2 rfl⟩

/-- Claim C3: when the backend's `get` raises (and `set` may raise too),
the wrapped call still returns exactly what `F` returns — the lookup error
is absorbed as a miss, a store error as a no-op, and `F` runs once. -/
theorem backend_get_failure_transparent (H : Hasher) (cfg : Config)
    (module funcName : String) (fseq : Nat → Except String PyVal) (env : Env)
    (st : List (String × PyVal)) (args : List PyVal)
    (kwargs : List (String × PyVal)) (key : String)
    (h1 : env.use_cache = true) (h2 : env.resolveOk = true) (h3 : env.getFails = true)
    (hk : generate_cache_key_for_method H module funcName kwargs args
      cfg.cache_kwarg_keys cfg.cache_key = Except.ok key) :
    (wrapper H cfg module funcName fseq env st args kwargs).result = callF (fseq 0) ∧
    (wrapper H cfg module funcName fseq env st args kwargs).log.funcCalls = 1 := by
  have hw : wrapper H cfg module funcName fseq env st args kwargs =
      computeAndStore cfg env st key 1 0 (fseq 0) := by
    unfold wrapper
    simp [h1, h2, hk, h3]
  rw [hw]
  cases hf : fseq 0 with
  | error e => exact ⟨rfl, rfl⟩
  | ok v =>
    simp only [computeAndStore]
    exact ⟨by split <;> rfl, by split <;> rfl⟩

/-- Claim C3 witness: a failing `get` and a failing `set` around a
successful computation of `5`. -/
theorem backend_get_failure_transparent_witness :
    (wrapper testH
        { cache_key := Option.some ("k"), cache_kwarg_keys := Option.none
          seconds := 60, cache_filter := fun _ => true } ("m") ("f")
        (fun _ => Except.ok (PyVal.int 5))
        { use_cache := true, resolveOk := true, getFails := true, setFails := true }
        [] [] []).result = callF (Except.ok (PyVal.int 5)) ∧
    (wrapper testH
        { cache_key := Option.some ("k"), cache_kwarg_keys := Option.none
          seconds := 60, cache_filter := fun _ => true } ("m") ("f")
        (fun _ => Except.ok (PyVal.int 5))
        { use_cache := true, resolveOk := true, getFails := true, setFails := true }
        [] [] []).log.funcCalls = 1 :=
  backend_get_failure_transparent testH
    { cache_key := Option.some ("k"), cache_kwarg_keys := Option.none
      seconds := 60, cache_filter := fun _ => true } ("m") ("f")
    (fun _ => Except.ok (PyVal.int 5))
    { use_cache := true, resolveOk := true, getFails := true, setFails := true }
    [] [] [] ("m::f::k") rfl rfl rfl (by rfl)

/-- Claim C8: with the fresh `USE_CACHE` read false, or the backend alias
failing to resolve, the wrapped call is a plain call of `F`: `F` runs
once, no key is derived (so no `ValueError` can arise), and the backend is
never consulted for `get` or `set`. -/
theorem disabled_flag_bypass (H : Hasher) (cfg : Config) (module funcName : String)
    (fseq : Nat → Except String PyVal) (env : Env) (st : List (String × PyVal))
    (args : List PyVal) (kwargs : List (String × PyVal))
    (h : env.use_cache = false ∨ env.resolveOk = false) :
    wrapper H cfg module funcName fseq env st args kwargs =
      { result := callF (fseq 0), store := st
        log := { funcCalls := 1, derivations := 0, getAttempts := 0, sets := [] } } := by
  unfold wrapper
  rcases h with h | h
  · rw [h]
    simp
  · cases hu : env.use_cache <;> rw [h] <;> simp

/-- Claim C8 witness: caching disabled, with a keyword-selection config
and a positional argument that would have raised had a key been derived. -/
theorem disabled_flag_bypass_witness :
    wrapper testH
        { cache_key := Option.none, cache_kwarg_keys := Option.some [("n" : String)]
          seconds := 900, cache_filter := fun _ => true } ("m") ("f")
        (fun _ => Except.ok (PyVal.int 7))
        { use_cache := false, resolveOk := true, getFails := false, setFails := false }
        [] [PyVal.int 1] [] =
      { result := callF (Except.ok (PyVal.int 7)), store := []
        log := { funcCalls := 1, derivations := 0, getAttempts := 0, sets := [] } } :=
  disabled_flag_bypass testH
    { cache_key := Option.none, cache_kwarg_keys := Option.some [("n" : String)]
      seconds := 900, cache_filter := fun _ => true } ("m") ("f")
    (fun _ => Except.ok (PyVal.int 7))
    { use_cache := false, resolveOk := true, getFails := false, setFails := false }
    [] [PyVal.int 1] [] (Or.inl rfl)

/-- Claim C5 counterexample: a first call whose result is `None` passes
the (all-accepting) filter and is stored, the entry is live at the second
call, yet the second call still runs `F` once rather than zero times —
`None` results defeat the hit path. -/
theorem none_result_not_served :
    (wrapper testH
        { cache_key := Option.some ("k"), cache_kwarg_keys := Option.none
          seconds := 900, cache_filter := fun _ => true } ("m") ("f")
        (fun _ => Except.ok PyVal.none) envOK [] [] []).log.funcCalls = 1 ∧
    (wrapper testH
        { cache_key := Option.some ("k"), cache_kwarg_keys := Option.none
          seconds := 900, cache_filter := fun _ => true } ("m") ("f")
        (fun _ => Except.ok PyVal.none) envOK [] [] []).store =
      [(("m::f::k" : String), PyVal.none)] ∧
    ((fun (_ : PyVal) => true) PyVal.none = true) ∧
    (wrapper testH
        { cache_key := Option.some ("k"), cache_kwarg_keys := Option.none
          seconds := 900, cache_filter := fun _ => true } ("m") ("f")
        (fun _ => Except.ok PyVal.none) envOK
        ((wrapper testH
            { cache_key := Option.some ("k"), cache_kwarg_keys := Option.none
              seconds := 900, cache_filter := fun _ => true } ("m") ("f")
            (fun _ => Except.ok PyVal.none) envOK [] [] []).store) [] []).log.funcCalls = 1 := by
  exact ⟨rfl, rfl, rfl, rfl⟩

/-- Claim C5 (amended to non-`None` results): on a fresh key the first
call runs `F` exactly once and returns its value, and if that value passes
the filter and is not `None`, a subsequent call deriving the same key
against the resulting live entry runs `F` zero times, returns the stored
value unchanged, leaves the store unchanged and attempts no `set`. -/
theorem miss_then_store_idempotent (H : Hasher) (cfg : Config)
    (module funcName : String) (env1 env2 : Env) (st : List (String × PyVal))
    (args1 : List PyVal) (kwargs1 : List (String × PyVal))
    (args2 : List PyVal) (kwargs2 : List (String × PyVal))
    (fseq1 fseq2 : Nat → Except String PyVal) (key : String) (v : PyVal)
    (h1 : env1.use_cache = true) (h2 : env1.resolveOk = true)
    (h3 : env1.getFails = false) (h4 : env1.setFails = false)
    (hk1 : generate_cache_key_for_method H module funcName kwargs1 args1
      cfg.cache_kwarg_keys cfg.cache_key = Except.ok key)
    (hfb1 : fseq1 0 = Except.ok v)
    (hmiss : getOrNone st key = PyVal.none)
    (hflt : cfg.cache_filter v = true) (hv : v ≠ PyVal.none)
    (g1 : env2.use_cache = true) (g2 : env2.resolveOk = true) (g3 : env2.getFails = false)
    (hk2 : generate_cache_key_for_method H module funcName kwargs2 args2
      cfg.cache_kwarg_keys cfg.cache_key = Except.ok key) :
    (wrapper H cfg module funcName fseq1 env1 st args1 kwargs1).log.funcCalls = 1 ∧
    (wrapper H cfg module funcName fseq1 env1 st args1 kwargs1).result =
      Except.ok v ∧
    wrapper H cfg module funcName fseq2 env2
        (wrapper H cfg module funcName fseq1 env1 st args1 kwargs1).store
        args2 kwargs2 =
      { result := Except.ok v
        store := (wrapper H cfg module funcName fseq1 env1 st args1 kwargs1).store
        log := { funcCalls := 0, derivations := 1, getAttempts := 1, sets := [] } } := by
  have hst : wrapper H cfg module funcName fseq1 env1 st args1 kwargs1 =
      { result := Except.ok v, store := storeSet st key v
        log := { funcCalls := 1, derivations := 1, getAttempts := 1
                 sets := [(key, v, cfg.seconds)] } } := by
    unfold wrapper
    simp [h1, h2, hk1, h3, hmiss, hfb1, computeAndStore, hflt, h4]
  refine ⟨by rw [hst], by rw [hst], ?_⟩
  rw [hst]
  unfold wrapper
  simp [g1, g2, hk2, g3, getOrNone_storeSet_self, hv, hflt]

/-- Claim C5 witness: `F` returns `3` on a cold cache; the repeat call is
served from the store without running the (here raising) second `F`. -/
theorem miss_then_store_idempotent_witness :
    (wrapper testH
        { cache_key := Option.some ("k"), cache_kwarg_keys := Option.none
          seconds := 900, cache_filter := fun _ => true } ("m") ("f")
        (fun _ => Except.ok (PyVal.int 3)) envOK [] [] []).log.funcCalls = 1 ∧
    (wrapper testH
        { cache_key := Option.some ("k"), cache_kwarg_keys := Option.none
          seconds := 900, cache_filter := fun _ => true } ("m") ("f")
        (fun _ => Except.ok (PyVal.int 3)) envOK [] [] []).result =
      Except.ok (PyVal.int 3) ∧
    wrapper testH
        { cache_key := Option.some ("k"), cache_kwarg_keys := Option.none
          seconds := 900, cache_filter := fun _ => true } ("m") ("f")
        (fun _ => Except.error ("boom")) envOK
        ((wrapper testH
            { cache_key := Option.some ("k"), cache_kwarg_keys := Option.none
              seconds := 900, cache_filter := fun _ => true } ("m") ("f")
            (fun _ => Except.ok (PyVal.int 3)) envOK [] [] []).store) [] [] =
      { result := Except.ok (PyVal.int 3)
        store := (wrapper testH
            { cache_key := Option.some ("k"), cache_kwarg_keys := Option.none
              seconds := 900, cache_filter := fun _ => true } ("m") ("f")
            (fun _ => Except.ok (PyVal.int 3)) envOK [] [] []).store
        log := { funcCalls := 0, derivations := 1, getAttempts := 1, sets := [] } } :=
  miss_then_store_idempotent testH
    { cache_key := Option.some ("k"), cache_kwarg_keys := Option.none
      seconds := 900, cache_filter := fun _ => true } ("m") ("f") envOK envOK []
    [] [] [] [] (fun _ => Except.ok (PyVal.int 3)) (fun _ => Except.error ("boom"))
    ("m::f::k") (PyVal.int 3)
    rfl rfl rfl rfl (by rfl) rfl (by rfl) (by rfl) (by decide) rfl rfl rfl (by rfl)

/-- Claim C10: a lookup that yields `None` — whether the key is absent or
a `None` value was stored — is handled as a miss: `F` runs once, its
outcome is the caller's result, a passing fresh value is (re)stored with
the configured TTL, and when `F`'s result is itself a stored-and-passing
`None`, the immediately following call recomputes again. -/
theorem stored_none_treated_as_miss (H : Hasher) (cfg : Config)
    (module funcName : String) (fseq : Nat → Except String PyVal) (env : Env)
    (st : List (String × PyVal)) (args : List PyVal)
    (kwargs : List (String × PyVal)) (key : String)
    (h1 : env.use_cache = true) (h2 : env.resolveOk = true)
    (h3 : env.getFails = false) (h4 : env.setFails = false)
    (hk : generate_cache_key_for_method H module funcName kwargs args
      cfg.cache_kwarg_keys cfg.cache_key = Except.ok key)
    (hmiss : getOrNone st key = PyVal.none) :
    (wrapper H cfg module funcName fseq env st args kwargs).log.funcCalls = 1 ∧
    (wrapper H cfg module funcName fseq env st args kwargs).result = callF (fseq 0) ∧
    (∀ v, fseq 0 = Except.ok v → cfg.cache_filter v = true →
      (wrapper H cfg module funcName fseq env st args kwargs).store =
        storeSet st key v ∧
      (wrapper H cfg module funcName fseq env st args kwargs).log.sets =
        [(key, v, cfg.seconds)]) ∧
    (fseq 0 = Except.ok PyVal.none → cfg.cache_filter PyVal.none = true →
      (wrapper H cfg module funcName fseq env
          (wrapper H cfg module funcName fseq env st args kwargs).store
          args kwargs).log.funcCalls = 1) := by
  have hw : wrapper H cfg module funcName fseq env st args kwargs =
      computeAndStore cfg env st key 1 0 (fseq 0) := by
    unfold wrapper
    simp [h1, h2, hk, h3, hmiss]
  refine ⟨?_, ?_, ?_, ?_⟩
  · rw [hw]
    cases hf : fseq 0 with
    | error e => rfl
    | ok v =>
      simp only [computeAndStore]
      split <;> rfl
  · rw [hw]
    cases hf : fseq 0 with
    | error e => rfl
    | ok v =>
      simp only [computeAndStore]
      split <;> rfl
  · intro v hfv hf
    rw [hw, hfv]
    simp [computeAndStore, hf, h4, storeSet]
  · intro hfv hf
    have hstore : (wrapper H cfg module funcName fseq env st args kwargs).store =
        storeSet st key PyVal.none := by
      rw [hw, hfv]
      simp [computeAndStore, hf, h4]
    rw [hstore]
    unfold wrapper
    simp [h1, h2, hk, h3, getOrNone_storeSet_self, computeAndStore]
    rw [hfv]
    simp only [computeAndStore]
    split <;> rfl

/-- Claim C10 witness: a wrapped function returning `None` under an
all-accepting filter stores its `None` yet recomputes on the next call. -/
theorem stored_none_treated_as_miss_witness :
    (wrapper testH
        { cache_key := Option.some ("k"), cache_kwarg_keys := Option.none
          seconds := 900, cache_filter := fun _ => true } ("m") ("f")
        (fun _ => Except.ok PyVal.none) envOK [] [] []).log.funcCalls = 1 ∧
    (wrapper testH
        { cache_key := Option.some ("k"), cache_kwarg_keys := Option.none
          seconds := 900, cache_filter := fun _ => true } ("m") ("f")
        (fun _ => Except.ok PyVal.none) envOK [] [] []).store =
      storeSet [] ("m::f::k") PyVal.none ∧
    (wrapper testH
        { cache_key := Option.some ("k"), cache_kwarg_keys := Option.none
          seconds := 900, cache_filter := fun _ => true } ("m") ("f")
        (fun _ => Except.ok PyVal.none) envOK
        ((wrapper testH
            { cache_key := Option.some ("k"), cache_kwarg_keys := Option.none
              seconds := 900, cache_filter := fun _ => true } ("m") ("f")
            (fun _ => Except.ok PyVal.none) envOK [] [] []).store) [] []).log.funcCalls = 1 :=
  ⟨(stored_none_treated_as_miss testH
      { cache_key := Option.some ("k"), cache_kwarg_keys := Option.none
        seconds := 900, cache_filter := fun _ => true } ("m") ("f")
      (fun _ => Except.ok PyVal.none) envOK [] [] [] ("m::f::k")
      rfl rfl rfl rfl (by rfl) (by rfl)).1,
   ((stored_none_treated_as_miss testH
      { cache_key := Option.some ("k"), cache_kwarg_keys := Option.none
        seconds := 900, cache_filter := fun _ => true } ("m") ("f")
      (fun _ => Except.ok PyVal.none) envOK [] [] [] ("m::f::k")
      rfl rfl rfl rfl (by rfl) (by rfl)).2.2.1 PyVal.none rfl rfl).1,
   (stored_none_treated_as_miss testH
      { cache_key := Option.some ("k"), cache_kwarg_keys := Option.none
        seconds := 900, cache_filter := fun _ => true } ("m") ("f")
      (fun _ => Except.ok PyVal.none) envOK [] [] [] ("m::f::k")
      rfl rfl rfl rfl (by rfl) (by rfl)).2.2.2 rfl rfl⟩

end DjangoCacheWrapper
